import Mathlib

/-!
Verification development for the peer-selecting RPC dispatcher of
`exchange-json-rpc` (`src/packages/rpc/src/services/network.ts`) and the
BIP38 wallet helpers (`src/unnamed/part_000`).

The TypeScript code is shallowly embedded: external collaborators
(peer discovery + `lodash.sample`, `is-reachable`, the `got` HTTP client,
`JSON.parse`, the key/value database, the cryptographic primitives) are
modelled as oracles supplied to each call, and the embedded functions
record the observable effects (issued HTTP requests, log lines, scheduled
timers) explicitly.  Unbounded recursion (`getPeer`, the `sendRequest`
retry loop) is driven by the finite oracle trace: exhausting the trace
yields the distinguished `diverge` outcome, so "diverges for every finite
trace" models nontermination.
-/

namespace ExchangeRpc

/-- A peer as used by `network.ts` (`IPeer`): an IP/host and a port. -/
structure Peer where
  ip : String
  port : Nat
deriving DecidableEq, Repr

/-- The options captured by `Network.init`.  In the TypeScript source
`peer` is a string option whose JavaScript truthiness is tested with
`if (this.options.peer)`; the empty string models an unset peer. -/
structure NetworkOptions where
  network : String
  peer : String
  maxLatency : Nat
  peerPort : Nat
deriving DecidableEq, Repr

/-- Log levels of the `logger` collaborator. -/
inductive LogLevel where
  | info
  | warn
  | error
deriving DecidableEq, Repr

/-- A single log line. -/
structure LogMsg where
  level : LogLevel
  msg : String
deriving DecidableEq, Repr

/-- Does a log line have `error` level?  (`logger.error` calls.) -/
def isErrorLog (l : LogMsg) : Bool :=
  match l.level with
  | .error => true
  | _ => false

/-- One iteration of the `getPeer` loop consumes one `ProbeRound` from the
oracle: `candidates` is what `this.getPeers()` (discovery filtered by the
`core-api` plugin) returned on that call, `pick` is the random index drawn
by `lodash.sample`, and `reachable` is the answer of `isReachable` for the
sampled peer. -/
structure ProbeRound where
  candidates : List Peer
  pick : Nat
  reachable : Bool
deriving DecidableEq, Repr

/-- Model of `lodash.sample`: a uniformly random element of the list, `undefined`
(`none`) exactly when the list is empty.  The random draw is the oracle
index `pick`, reduced modulo the length. -/
def sample (candidates : List Peer) (pick : Nat) : Option Peer :=
  candidates.get? (pick % candidates.length)

/-- A JavaScript `TypeError` raised by reading the named property of
`undefined` (or `null`). -/
inductive JsError where
  | typeError (field : String)
deriving DecidableEq, Repr

/-- Result of one `getPeer` call. -/
inductive GetPeerOutcome where
  | ok (p : Peer)
  | err (e : JsError)
  | diverge
deriving DecidableEq, Repr

/-- Everything observable about one `getPeer` call: its outcome, the log
lines it produced, and how many discovery calls (`this.getPeers()`) and
reachability probes (`isReachable`) it performed. -/
structure GetPeerRun where
  outcome : GetPeerOutcome
  logs : List LogMsg
  discoveryCalls : Nat
  probes : Nat
deriving DecidableEq, Repr

/-- The warning logged for an unresponsive sampled peer. -/
def unresponsiveLog (p : Peer) : LogMsg :=
  { level := .warn, msg := p.ip ++ ":" ++ toString p.port ++ " is unresponsive. Choosing new peer." }

/-- Embedding of `Network.getPeer` (`network.ts` lines 91-106).

If `options.peer` is truthy the configured seed peer is returned at once:
no discovery call, no probe, no log.  Otherwise one oracle round is
consumed: `sample` draws from the discovery result; sampling an empty
list yields `undefined` and the subsequent `peer.ip` access throws a
`TypeError`; an unreachable peer is logged and the function recurses
(with no exclusion list, no delay and no ceiling) on the remaining
rounds; exhausting the rounds models nontermination (`diverge`). -/
def getPeer (opts : NetworkOptions) : List ProbeRound → GetPeerRun
  | [] =>
    if opts.peer ≠ "" then
      { outcome := .ok { ip := opts.peer, port := opts.peerPort }, logs := [], discoveryCalls := 0, probes := 0 }
    else
      { outcome := .diverge, logs := [], discoveryCalls := 0, probes := 0 }
  | r :: rest =>
    if opts.peer ≠ "" then
      { outcome := .ok { ip := opts.peer, port := opts.peerPort }, logs := [], discoveryCalls := 0, probes := 0 }
    else
      match sample r.candidates r.pick with
      | none =>
        { outcome := .err (.typeError "ip"), logs := [], discoveryCalls := 1, probes := 0 }
      | some p =>
        if r.reachable then
          { outcome := .ok p, logs := [], discoveryCalls := 1, probes := 1 }
        else
          let k := getPeer opts rest
          { outcome := k.outcome,
            logs := unresponsiveLog p :: k.logs,
            discoveryCalls := 1 + k.discoveryCalls,
            probes := 1 + k.probes }

/-- A JSON value, as produced by `JSON.parse` / consumed by
`JSON.stringify`.  (Arrays are not needed by any claim and are omitted;
objects keep their field order.) -/
inductive Json where
  | null
  | bool (b : Bool)
  | num (n : Int)
  | str (s : String)
  | obj (fields : List (String × Json))
deriving Repr

mutual

/-- Model of `JSON.stringify` on `Json` values (string escaping is not
modelled; only *when* serialization happens matters to the claims). -/
def jsonStringify : Json → String
  | .null => "null"
  | .bool true => "true"
  | .bool false => "false"
  | .num n => toString n
  | .str s => "\"" ++ s ++ "\""
  | .obj fields => "\x7b" ++ stringifyFields fields ++ "\x7d"

/-- Comma-separated `"key":value` serialization of object fields. -/
def stringifyFields : List (String × Json) → String
  | [] => ""
  | [(k, v)] => "\"" ++ k ++ "\":" ++ jsonStringify v
  | (k, v) :: rest => "\"" ++ k ++ "\":" ++ jsonStringify v ++ "," ++ stringifyFields rest

end

/-- The value stored in `options.body`: either a non-string JavaScript
value (an object, always truthy) or already a string. -/
inductive Body where
  | obj (j : Json)
  | str (s : String)
deriving Repr

/-- The mutation `if (options.body && typeof options.body !== "string")
options.body = JSON.stringify(options.body)` (`network.ts` lines 61-63):
a present non-string body is replaced by its JSON serialization; a
string body (truthy or not) and an absent body are left unchanged. -/
def serializeBody : Option Body → Option Body
  | some (.obj j) => some (.str (jsonStringify j))
  | b => b

/-- The body string handed to `got` after the serialization step:
present exactly when `options.body` is present, JSON-serialized exactly
when it was present and not already a string. -/
def sentBodyOf : Option Body → Option String
  | none => none
  | some (.obj j) => some (jsonStringify j)
  | some (.str s) => some s

/-- The request options object threaded through `sendRequest` (the
`options` parameter built by `sendGET` / `sendPOST`). -/
structure ReqOptions where
  query : List (String × String)
  body : Option Body

/-- Outcome of one `got[method](uri, ...)` call: a resolved response
body, or a rejection (timeout, connection error, non-2xx status). -/
inductive HttpOutcome where
  | success (body : String)
  | failure (msg : String)
deriving Repr

/-- Oracle for one attempt of the `sendRequest` retry loop: the probe
rounds consumed by that attempt's `getPeer` call, the outcome of the
`got` call (if one is made), and the result of `JSON.parse` on the
response body (error message on a `SyntaxError`). -/
structure Attempt where
  probes : List ProbeRound
  http : HttpOutcome
  parse : Except String Json

/-- The observable shape of one HTTP request issued by `sendRequest`:
the selected peer, method, URI, the fixed headers and timeout, the query,
the `options.body` value at the start of the attempt and the body string
actually sent. -/
structure IssuedRequest where
  peer : Peer
  method : String
  uri : String
  accept : String
  contentType : String
  timeout : Nat
  query : List (String × String)
  bodyBefore : Option Body
  sentBody : Option String

/-- Result of a `sendRequest` call: a parsed JSON response, the
`undefined` sentinel returned after 3 failed tries, or `diverge` when
the oracle trace ends before the call does (an unfinished execution,
e.g. `getPeer` recursing forever). -/
inductive SRResult where
  | ok (j : Json)
  | noResult
  | diverge
deriving Repr

/-- The URI built for a peer and path: `http://{peer.ip}:{peer.port}/api/{url}`. -/
def mkUri (p : Peer) (url : String) : String :=
  "http://" ++ p.ip ++ ":" ++ toString p.port ++ "/api/" ++ url

/-- The `logger.info` line announcing a request. -/
def infoLog (opts : NetworkOptions) (uri : String) : LogMsg :=
  { level := .info, msg := "Sending request on \"" ++ opts.network ++ "\" to \"" ++ uri ++ "\"" }

/-- The final `logger.error` line after the third failed try. -/
def finalFailLog : LogMsg :=
  { level := .error, msg := "Failed to find a responsive peer after 3 tries." }

/-- The `logger.error(error.message)` line for a caught `TypeError`. -/
def errorLogOf : JsError → LogMsg
  | .typeError f => { level := .error, msg := "Cannot read property " ++ f ++ " of undefined" }

/-- The request record built and sent for a selected peer within one
attempt: fixed `Accept`/`Content-Type` headers, fixed 3000 ms timeout,
URI from the peer and path, body serialized by `sentBodyOf`. -/
def mkReq (peer : Peer) (method url : String) (ro : ReqOptions) : IssuedRequest :=
  { peer := peer, method := method, uri := mkUri peer url,
    accept := "application/vnd.core-api.v2+json",
    contentType := "application/json",
    timeout := 3000,
    query := ro.query,
    bodyBefore := ro.body,
    sentBody := sentBodyOf ro.body }

/-- The result of the `got` call followed by `JSON.parse`: an HTTP
rejection or a `SyntaxError` from parsing both reach the same `catch`
with their message. -/
def attemptOutcome (a : Attempt) : Except String Json :=
  match a.http with
  | .failure m => .error m
  | .success _ => a.parse

/-- Embedding of `Network.sendRequest` (`network.ts` lines 54-89).

Each attempt selects a peer through `getPeer`, builds the URI, logs the
info line, serializes a present non-string body in place (the mutation of
`options` persists into retries), performs the HTTP call and parses the
response.  Any error is caught and logged; after `tries` is incremented
past 2 (3 total attempts) the final failure is logged and the
`undefined` sentinel (`noResult`) is returned; otherwise the whole
function recurses — re-running peer selection — on the remaining oracle
attempts. -/
def sendRequest (opts : NetworkOptions) (method url : String) :
    ReqOptions → List Attempt → Nat → SRResult × List IssuedRequest × List LogMsg
  | _, [], _ => (.diverge, [], [])
  | ro, a :: rest, tries =>
    match (getPeer opts a.probes).outcome with
    | .diverge => (.diverge, [], (getPeer opts a.probes).logs)
    | .err e =>
      if tries + 1 > 2 then
        (.noResult, [], (getPeer opts a.probes).logs ++ [errorLogOf e, finalFailLog])
      else
        let k := sendRequest opts method url ro rest (tries + 1)
        (k.1, k.2.1, (getPeer opts a.probes).logs ++ errorLogOf e :: k.2.2)
    | .ok peer =>
      let req := mkReq peer method url ro
      match attemptOutcome a with
      | .ok j =>
        (.ok j, [req], (getPeer opts a.probes).logs ++ [infoLog opts (mkUri peer url)])
      | .error m =>
        if tries + 1 > 2 then
          (.noResult, [req],
           (getPeer opts a.probes).logs ++ [infoLog opts (mkUri peer url), ⟨.error, m⟩, finalFailLog])
        else
          let k := sendRequest opts method url { ro with body := serializeBody ro.body } rest (tries + 1)
          (k.1, req :: k.2.1,
           (getPeer opts a.probes).logs ++ infoLog opts (mkUri peer url) :: LogMsg.mk .error m :: k.2.2)

/-- Embedding of `Network.sendGET`: a GET through the dispatcher with a query and no body. -/
def sendGET (opts : NetworkOptions) (path : String) (query : List (String × String))
    (attempts : List Attempt) : SRResult × List IssuedRequest × List LogMsg :=
  sendRequest opts "get" path { query := query, body := none } attempts 0

/-- Embedding of `Network.sendPOST`: a POST through the dispatcher with an object body. -/
def sendPOST (opts : NetworkOptions) (path : String) (body : List (String × Json))
    (attempts : List Attempt) : SRResult × List IssuedRequest × List LogMsg :=
  sendRequest opts "post" path { query := [], body := some (.obj (.obj body)) } attempts 0

/-- An attempt on which the dispatcher's `try` block fails after a peer
was successfully selected: the HTTP call rejects or the response body
fails to parse. -/
def attemptFailsHttp (opts : NetworkOptions) (a : Attempt) : Bool :=
  (match (getPeer opts a.probes).outcome with
   | .ok _ => true
   | _ => false) &&
  (match attemptOutcome a with
   | .ok _ => false
   | .error _ => true)

/-- Assoc-list lookup of a JSON object field (first binding wins). -/
def jsonLookup : List (String × Json) → String → Option Json
  | [], _ => none
  | (k, v) :: rest, f => if k = f then some v else jsonLookup rest f

/-- JavaScript property access `v.f` on a possibly-undefined JSON value:
reading a property of `undefined` or `null` throws a `TypeError`; on an
object it yields the field (or `undefined`); on any other primitive it
yields `undefined`. -/
def jsAccess : Option Json → String → Except JsError (Option Json)
  | none, f => .error (.typeError f)
  | some .null, f => .error (.typeError f)
  | some (.obj fields), f => .ok (jsonLookup fields f)
  | some _, _ => .ok none

/-- A chain of JavaScript property accesses `v.f1.f2...`. -/
def memberChain : Option Json → List String → Except JsError (Option Json)
  | v, [] => .ok v
  | v, f :: rest =>
    match jsAccess v f with
    | .error e => .error e
    | .ok w => memberChain w rest

/-- Result of `Network.getHeight`: the value of `.data.block.height`
(possibly `undefined`), a thrown `TypeError`, or an unfinished trace. -/
inductive GetHeightResult where
  | ok (height : Option Json)
  | threw (e : JsError)
  | diverge
deriving Repr

/-- The member access `(<dispatch result>).data.block.height` performed
by `getHeight` on whatever `sendGET` returned: the `noResult` sentinel
is `undefined`, so the very first access throws. -/
def heightOf : SRResult → GetHeightResult
  | .diverge => .diverge
  | .noResult =>
    match memberChain none ["data", "block", "height"] with
    | .error e => .threw e
    | .ok v => .ok v
  | .ok j =>
    match memberChain (some j) ["data", "block", "height"] with
    | .error e => .threw e
    | .ok v => .ok v

/-- Embedding of `Network.getHeight` (`network.ts` lines 40-42):
`(await this.sendGET({ path: "blockchain" })).data.block.height`. -/
def getHeight (opts : NetworkOptions) (attempts : List Attempt) :
    GetHeightResult × List IssuedRequest × List LogMsg :=
  let k := sendGET opts "blockchain" [] attempts
  (heightOf k.1, k.2.1, k.2.2)

/-- The milestone snapshot returned by
`Managers.configManager.getMilestone(height)`: the `aip11` feature flag
and the block time in seconds. -/
structure Milestone where
  aip11 : Bool
  blocktime : Nat

/-- Observable side effects of one milestone-watcher iteration:
`Managers.configManager.setHeight(height)` and
`setTimeout(() => this.checkForAip11Enabled(), ms)`. -/
inductive WatcherAction where
  | setHeight (h : Option Json)
  | schedule (delayMs : Nat)

/-- The part of `checkForAip11Enabled` (`network.ts` lines 44-52) after
the height has been polled successfully: write the height, resolve its
milestone, and unless `milestone.aip11` is set schedule exactly one
future run of itself after `milestone.blocktime * 1000` milliseconds. -/
def aip11Step (h : Option Json) (gm : Option Json → Milestone) : List WatcherAction :=
  let milestone := gm h
  .setHeight h :: (if milestone.aip11 then [] else [.schedule (milestone.blocktime * 1000)])

/-- Outcome of one full milestone-watcher iteration. -/
inductive WatcherOutcome where
  | completed (actions : List WatcherAction)
  | threw (e : JsError)
  | diverge

/-- Embedding of `Network.checkForAip11Enabled` (`network.ts` lines
44-52): poll the height through the dispatcher, then run `aip11Step`; a
`TypeError` thrown by `getHeight` propagates (the async function
rejects) and no action — in particular no reschedule — happens. -/
def checkForAip11Enabled (opts : NetworkOptions) (attempts : List Attempt)
    (gm : Option Json → Milestone) : WatcherOutcome × List IssuedRequest × List LogMsg :=
  let k := getHeight opts attempts
  (match k.1 with
   | .ok h => .completed (aip11Step h gm)
   | .threw e => .threw e
   | .diverge => .diverge,
   k.2.1, k.2.2)

/-- The result of `Crypto.bip38.decrypt`: a private key and the compressed flag. -/
structure Bip38DecryptResult where
  privateKey : String
  compressed : Bool

/-- The cryptographic collaborators used by the wallet helpers in
`src/unnamed/part_000`, modelled as opaque function parameters:
hex-encoded SHA-256, `Crypto.bip38.decrypt`, `wif.encode`,
`Identities.Keys.fromWIF` (keys kept opaque as a string), and the
`network.wif` version byte from the config manager. -/
structure CryptoOps where
  sha256hex : String → String
  bip38decrypt : String → String → Bip38DecryptResult
  wifEncode : Nat → String → Bool → String
  keysFromWIF : String → String
  networkWif : Nat

/-- An `IWallet` value: the derived keys and the encoded WIF. -/
structure IWallet where
  keys : String
  wif : String
deriving DecidableEq, Repr

/-- Embedding of `decryptWIF` (`src/unnamed/part_000` lines 12-25):
decrypt the stored WIF with the passphrase `bip38password + userId`
(`encryptedWif.toString("hex")` is the identity on a string and is
dropped), re-encode it under the network's WIF version byte, and derive
the keys from the encoded WIF. -/
def decryptWIF (ops : CryptoOps) (encryptedWif userId bip38password : String) : IWallet :=
  let decrypted := ops.bip38decrypt encryptedWif (bip38password ++ userId)
  let encodedWIF := ops.wifEncode ops.networkWif decrypted.privateKey decrypted.compressed
  { keys := ops.keysFromWIF encodedWIF, wif := encodedWIF }

/-- Embedding of `getBIP38Wallet` (`src/unnamed/part_000` lines 6-10):
look the encrypted WIF up under the hex SHA-256 of the user id (the
database collaborator is the oracle `dbGet`, `none` = no entry) and test
it for JavaScript truthiness — `undefined` *and* the empty string both
fail the test and yield `undefined`. -/
def getBIP38Wallet (ops : CryptoOps) (dbGet : String → Option String)
    (userId bip38password : String) : Option IWallet :=
  match dbGet (ops.sha256hex userId) with
  | none => none
  | some encryptedWif =>
    if encryptedWif ≠ "" then some (decryptWIF ops encryptedWif userId bip38password) else none

/-- Fixture: non-seed options for concrete executions. -/
def fixOpts : NetworkOptions :=
  { network := "testnet", peer := "", maxLatency := 300, peerPort := 4003 }

/-- Fixture peer P1. -/
def fixP1 : Peer := { ip := "1.1.1.1", port := 4003 }

/-- Fixture peer P2. -/
def fixP2 : Peer := { ip := "2.2.2.2", port := 4003 }

/-- Fixture: an attempt that samples P1 (reachable at probe time) and
then has its HTTP call refused. -/
def fixFailConn : Attempt :=
  { probes := [{ candidates := [fixP1, fixP2], pick := 0, reachable := true }],
    http := .failure "connect ECONNREFUSED", parse := .ok .null }

/-- Fixture: an attempt that samples P1, gets a 2xx response whose body
fails to parse as JSON. -/
def fixFailParse : Attempt :=
  { probes := [{ candidates := [fixP1, fixP2], pick := 0, reachable := true }],
    http := .success "<html>", parse := .error "Unexpected token < in JSON at position 0" }

/-- Fixture: an attempt that samples P1 and then times out. -/
def fixFailTimeout : Attempt :=
  { probes := [{ candidates := [fixP1, fixP2], pick := 0, reachable := true }],
    http := .failure "Timeout awaiting request for 3000ms", parse := .ok .null }

/-- Fixture: an attempt that samples P2 and succeeds with parsed body `42`. -/
def fixSuccessP2 : Attempt :=
  { probes := [{ candidates := [fixP1, fixP2], pick := 1, reachable := true }],
    http := .success "42", parse := .ok (.num 42) }

/-- Fixture: concrete crypto collaborators for the wallet executions. -/
def fixCrypto : CryptoOps :=
  { sha256hex := fun s => "h-" ++ s,
    bip38decrypt := fun ewif pass => { privateKey := ewif ++ ":" ++ pass, compressed := true },
    wifEncode := fun v key c => toString v ++ ":" ++ key ++ (if c then ":c" else ""),
    keysFromWIF := fun w => "keys-" ++ w,
    networkWif := 170 }

/-- Fixture: a database holding an empty encrypted WIF for user `alice`. -/
def fixDbEmpty : String → Option String :=
  fun k => if k = "h-alice" then some "" else none

/-- Fixture: a database holding encrypted WIF `6Pfix` for user `alice`. -/
def fixDb : String → Option String :=
  fun k => if k = "h-alice" then some "6Pfix" else none

theorem sample_nil (pick : Nat) : sample [] pick = none := rfl

theorem sample_mem {candidates : List Peer} {pick : Nat} {p : Peer}
    (h : sample candidates pick = some p) : p ∈ candidates :=
  List.get?_mem h

/-- Every log line produced by `getPeer` is the warning for an
unresponsive peer, hence `warn`-level. -/
theorem getPeer_logs_warn (opts : NetworkOptions) (rounds : List ProbeRound) :
    ∀ l ∈ (getPeer opts rounds).logs, l.level = .warn := by
  induction rounds with
  | nil =>
    intro l hl
    unfold getPeer at hl
    split at hl <;> simp at hl
  | cons r rest ih =>
    intro l hl
    unfold getPeer at hl
    split at hl
    · simp at hl
    · revert hl
      cases hs : sample r.candidates r.pick with
      | none => simp
      | some p =>
        cases hr : r.reachable <;> simp [hr]
        intro hl
        rcases hl with hl | hl
        · simp [hl, unresponsiveLog]
        · exact ih l hl

/-- No `getPeer` log line is `error`-level. -/
theorem getPeer_logs_no_error (opts : NetworkOptions) (rounds : List ProbeRound) :
    (getPeer opts rounds).logs.countP isErrorLog = 0 := by
  rw [List.countP_eq_zero]
  intro l hl
  have := getPeer_logs_warn opts rounds l hl
  simp [isErrorLog, this]

/-- C3: if an explicit seed peer is configured (`options.peer` truthy),
every `getPeer` call returns exactly `{ ip := options.peer, port :=
options.peerPort }`, with no log line, no discovery call and no
reachability probe, whatever the discovery/probe oracle holds. -/
theorem getPeer_seed_always_returns_configured (opts : NetworkOptions)
    (rounds : List ProbeRound) (h : opts.peer ≠ "") :
    getPeer opts rounds =
      { outcome := .ok { ip := opts.peer, port := opts.peerPort },
        logs := [], discoveryCalls := 0, probes := 0 } := by
  cases rounds <;> simp [getPeer, h]

theorem getPeer_seed_always_returns_configured_witness :
    getPeer { network := "mainnet", peer := "5.6.7.8", maxLatency := 300, peerPort := 4003 }
        [{ candidates := [{ ip := "9.9.9.9", port := 4003 }], pick := 0, reachable := false }] =
      { outcome := .ok { ip := "5.6.7.8", port := 4003 },
        logs := [], discoveryCalls := 0, probes := 0 } :=
  getPeer_seed_always_returns_configured _ _ (by decide)

/-- C4: in non-seed mode, every round whose sampled peer fails the probe
logs one warning and recurses with no exclusion list, delay or ceiling;
hence on any finite oracle trace in which every sampled peer is
unreachable, `getPeer` never returns (outcome `diverge` for every trace
length), emitting exactly one warning per consumed round. -/
theorem getPeer_all_unreachable_never_terminates (opts : NetworkOptions)
    (rounds : List ProbeRound) (hseed : opts.peer = "")
    (hall : ∀ r ∈ rounds, (sample r.candidates r.pick).isSome = true ∧ r.reachable = false) :
    (getPeer opts rounds).outcome = .diverge ∧
    (getPeer opts rounds).logs.length = rounds.length ∧
    ∀ l ∈ (getPeer opts rounds).logs, l.level = .warn := by
  refine ⟨?_, ?_, getPeer_logs_warn opts rounds⟩ <;>
  · induction rounds with
    | nil => simp [getPeer, hseed]
    | cons r rest ih =>
      obtain ⟨hs, hr⟩ := hall r (by simp)
      obtain ⟨p, hp⟩ := Option.isSome_iff_exists.mp hs
      have ih := ih (fun x hx => hall x (by simp [hx]))
      simp [getPeer, hseed, hp, hr, ih]

theorem getPeer_all_unreachable_never_terminates_witness :
    (getPeer { network := "testnet", peer := "", maxLatency := 300, peerPort := 4003 }
        [{ candidates := [{ ip := "9.9.9.9", port := 4003 }], pick := 5, reachable := false }]).outcome
      = .diverge ∧
    (getPeer { network := "testnet", peer := "", maxLatency := 300, peerPort := 4003 }
        [{ candidates := [{ ip := "9.9.9.9", port := 4003 }], pick := 5, reachable := false }]).logs.length = 1 ∧
    ∀ l ∈ (getPeer { network := "testnet", peer := "", maxLatency := 300, peerPort := 4003 }
        [{ candidates := [{ ip := "9.9.9.9", port := 4003 }], pick := 5, reachable := false }]).logs,
      l.level = .warn :=
  getPeer_all_unreachable_never_terminates _ _ rfl (by decide)

/-- C5: in non-seed mode, any peer actually returned by `getPeer` was the
sampled peer of some consumed oracle round whose reachability probe
(`isReachable` on its host and port) answered `true` at selection time;
in particular it came from that round's discovery candidates. -/
theorem getPeer_nonseed_returns_probed_peer (opts : NetworkOptions)
    (rounds : List ProbeRound) (p : Peer) (hseed : opts.peer = "")
    (hok : (getPeer opts rounds).outcome = .ok p) :
    ∃ r ∈ rounds, sample r.candidates r.pick = some p ∧ r.reachable = true ∧ p ∈ r.candidates := by
  induction rounds with
  | nil => simp [getPeer, hseed] at hok
  | cons r rest ih =>
    rw [getPeer] at hok
    rw [if_neg (by simp [hseed])] at hok
    revert hok
    cases hs : sample r.candidates r.pick with
    | none => intro hok; simp at hok
    | some q =>
      cases hr : r.reachable with
      | true =>
        intro hok
        simp at hok
        exact ⟨r, by simp, by simp [hs, hok], hr, hok ▸ sample_mem hs⟩
      | false =>
        intro hok
        simp at hok
        obtain ⟨r', hr', hprop⟩ := ih hok
        exact ⟨r', by simp [hr'], hprop⟩

theorem getPeer_nonseed_returns_probed_peer_witness :
    ∃ r ∈ [ProbeRound.mk [{ ip := "9.9.9.9", port := 4003 }] 0 false,
           ProbeRound.mk [{ ip := "7.7.7.7", port := 4003 }] 3 true],
      sample r.candidates r.pick = some { ip := "7.7.7.7", port := 4003 } ∧
      r.reachable = true ∧ Peer.mk "7.7.7.7" 4003 ∈ r.candidates :=
  getPeer_nonseed_returns_probed_peer
    { network := "testnet", peer := "", maxLatency := 300, peerPort := 4003 } _ _ rfl (by decide)

/-- C8: in non-seed mode, when the capability-filtered candidate list of
the current round is empty, `getPeer` does not produce any peer value:
`sample` yields `undefined` and the `peer.ip` access throws a
`TypeError`, a result distinct from every `ok` peer. -/
theorem getPeer_empty_candidates_no_peer (opts : NetworkOptions)
    (r : ProbeRound) (rest : List ProbeRound) (hseed : opts.peer = "")
    (hempty : r.candidates = []) :
    (getPeer opts (r :: rest)).outcome = .err (.typeError "ip") ∧
    ∀ p : Peer, (getPeer opts (r :: rest)).outcome ≠ .ok p := by
  have hs : sample r.candidates r.pick = none := by rw [hempty]; rfl
  rw [getPeer, if_neg (by simp [hseed])]
  simp [hs]

theorem getPeer_empty_candidates_no_peer_witness :
    (getPeer { network := "testnet", peer := "", maxLatency := 300, peerPort := 4003 }
        [{ candidates := [], pick := 2, reachable := true }]).outcome = .err (.typeError "ip") ∧
    ∀ p : Peer,
      (getPeer { network := "testnet", peer := "", maxLatency := 300, peerPort := 4003 }
        [{ candidates := [], pick := 2, reachable := true }]).outcome ≠ .ok p :=
  getPeer_empty_candidates_no_peer _ _ _ rfl rfl

/-- A failing attempt yields a selected peer and an error message. -/
theorem attemptFailsHttp_spec {opts : NetworkOptions} {a : Attempt}
    (ha : attemptFailsHttp opts a = true) :
    ∃ p msg, (getPeer opts a.probes).outcome = .ok p ∧ attemptOutcome a = .error msg := by
  unfold attemptFailsHttp at ha
  rw [Bool.and_eq_true] at ha
  obtain ⟨ha1, ha2⟩ := ha
  cases h1 : (getPeer opts a.probes).outcome with
  | ok p =>
    cases h2 : attemptOutcome a with
    | ok j => rw [h2] at ha2; simp at ha2
    | error m => exact ⟨p, m, rfl, rfl⟩
  | err e => rw [h1] at ha1; simp at ha1
  | diverge => rw [h1] at ha1; simp at ha1

/-- Unfolding of a non-final failed attempt: the request to the selected
peer is issued, the failure is logged once, and the dispatcher recurses
on the remaining oracle with `tries + 1` and the (possibly serialized)
body. -/
theorem sendRequest_cons_fail (opts : NetworkOptions) (m u : String) (ro : ReqOptions)
    (a : Attempt) (rest : List Attempt) (tries : Nat) (p : Peer) (msg : String)
    (hp : (getPeer opts a.probes).outcome = .ok p)
    (hf : attemptOutcome a = .error msg)
    (ht : tries + 1 ≤ 2) :
    sendRequest opts m u ro (a :: rest) tries =
      ((sendRequest opts m u { ro with body := serializeBody ro.body } rest (tries + 1)).1,
       mkReq p m u ro ::
         (sendRequest opts m u { ro with body := serializeBody ro.body } rest (tries + 1)).2.1,
       (getPeer opts a.probes).logs ++
         infoLog opts (mkUri p u) :: LogMsg.mk .error msg ::
           (sendRequest opts m u { ro with body := serializeBody ro.body } rest (tries + 1)).2.2) := by
  have hcond : ¬ (tries + 1 > 2) := by omega
  simp only [sendRequest, hp, hf]
  rw [if_neg hcond]

/-- Unfolding of the third failed attempt: the request is issued, the
failure and the final failure are logged, and the `undefined` sentinel is
returned. -/
theorem sendRequest_cons_fail_last (opts : NetworkOptions) (m u : String) (ro : ReqOptions)
    (a : Attempt) (rest : List Attempt) (tries : Nat) (p : Peer) (msg : String)
    (hp : (getPeer opts a.probes).outcome = .ok p)
    (hf : attemptOutcome a = .error msg)
    (ht : tries + 1 > 2) :
    sendRequest opts m u ro (a :: rest) tries =
      (.noResult, [mkReq p m u ro],
       (getPeer opts a.probes).logs ++
         [infoLog opts (mkUri p u), LogMsg.mk .error msg, finalFailLog]) := by
  simp only [sendRequest, hp, hf]
  rw [if_pos ht]

/-- Helper: `getLast?` skips a leading block of logs followed by two more lines
when a nonempty tail follows. -/
theorem getLast?_block {α : Type} (L : List α) (x y : α) (X : List α) (hX : X ≠ []) :
    (L ++ x :: y :: X).getLast? = X.getLast? := by
  rw [List.getLast?_append_of_ne_nil _ (by simp), List.getLast?_cons_cons,
    show (y :: X) = [y] ++ X from rfl, List.getLast?_append_of_ne_nil _ hX]

/-- Core exhaustion lemma: three consecutive failing attempts starting
from `tries = 0` produce the sentinel, exactly three issued requests,
exactly four error log lines and the final failure line last. -/
theorem sendRequest_exhausts (opts : NetworkOptions) (m u : String) (ro : ReqOptions)
    (a1 a2 a3 : Attempt) (rest : List Attempt)
    (h1 : attemptFailsHttp opts a1 = true)
    (h2 : attemptFailsHttp opts a2 = true)
    (h3 : attemptFailsHttp opts a3 = true) :
    (sendRequest opts m u ro (a1 :: a2 :: a3 :: rest) 0).1 = .noResult ∧
    (sendRequest opts m u ro (a1 :: a2 :: a3 :: rest) 0).2.1.length = 3 ∧
    (sendRequest opts m u ro (a1 :: a2 :: a3 :: rest) 0).2.2.countP isErrorLog = 4 ∧
    (sendRequest opts m u ro (a1 :: a2 :: a3 :: rest) 0).2.2.getLast? = some finalFailLog := by
  obtain ⟨p1, m1, hp1, hf1⟩ := attemptFailsHttp_spec h1
  obtain ⟨p2, m2, hp2, hf2⟩ := attemptFailsHttp_spec h2
  obtain ⟨p3, m3, hp3, hf3⟩ := attemptFailsHttp_spec h3
  rw [sendRequest_cons_fail opts m u ro a1 _ 0 p1 m1 hp1 hf1 (by omega)]
  rw [sendRequest_cons_fail opts m u _ a2 _ 1 p2 m2 hp2 hf2 (by omega)]
  rw [sendRequest_cons_fail_last opts m u _ a3 _ 2 p3 m3 hp3 hf3 (by omega)]
  refine ⟨rfl, rfl, ?_, ?_⟩
  · simp [List.countP_append, List.countP_cons, getPeer_logs_no_error,
      isErrorLog, infoLog, finalFailLog]
  · rw [getLast?_block _ _ _ _ (by simp), getLast?_block _ _ _ _ (by simp),
      List.getLast?_append_of_ne_nil _ (by simp)]
    rfl

/-- C1: a `sendRequest` dispatch in which every attempt fails (timeout,
connection error, non-2xx or parse error each time) makes exactly 3
total attempts (3 issued requests), returns the `undefined` sentinel
(`noResult` — no error is raised, every failure is caught), and logs
exactly one failure line per attempt plus one final failure line, which
comes last. -/
theorem sendRequest_all_attempts_fail_returns_sentinel (opts : NetworkOptions)
    (m u : String) (ro : ReqOptions) (a1 a2 a3 : Attempt) (rest : List Attempt)
    (h1 : attemptFailsHttp opts a1 = true)
    (h2 : attemptFailsHttp opts a2 = true)
    (h3 : attemptFailsHttp opts a3 = true) :
    (sendRequest opts m u ro (a1 :: a2 :: a3 :: rest) 0).1 = .noResult ∧
    (sendRequest opts m u ro (a1 :: a2 :: a3 :: rest) 0).2.1.length = 3 ∧
    (sendRequest opts m u ro (a1 :: a2 :: a3 :: rest) 0).2.2.countP isErrorLog = 4 ∧
    (sendRequest opts m u ro (a1 :: a2 :: a3 :: rest) 0).2.2.getLast? = some finalFailLog :=
  sendRequest_exhausts opts m u ro a1 a2 a3 rest h1 h2 h3

theorem sendRequest_all_attempts_fail_returns_sentinel_witness :
    (sendRequest fixOpts "get" "blocks" ⟨[], none⟩
        [fixFailConn, fixFailParse, fixFailTimeout] 0).1 = .noResult ∧
    (sendRequest fixOpts "get" "blocks" ⟨[], none⟩
        [fixFailConn, fixFailParse, fixFailTimeout] 0).2.1.length = 3 ∧
    (sendRequest fixOpts "get" "blocks" ⟨[], none⟩
        [fixFailConn, fixFailParse, fixFailTimeout] 0).2.2.countP isErrorLog = 4 ∧
    (sendRequest fixOpts "get" "blocks" ⟨[], none⟩
        [fixFailConn, fixFailParse, fixFailTimeout] 0).2.2.getLast? = some finalFailLog :=
  sendRequest_all_attempts_fail_returns_sentinel fixOpts "get" "blocks" ⟨[], none⟩
    fixFailConn fixFailParse fixFailTimeout [] (by decide) (by decide) (by decide)

/-- C2: after a failed attempt the dispatcher recurses into a fresh
`sendRequest` call, whose first action is a fresh `getPeer` selection
(first conjunct); concretely, with candidates `{P1, P2}` where P1 is
reachable at probe time but refuses the HTTP call, the dispatch succeeds
on its second attempt using P2: the issued requests went to P1 then P2. -/
theorem sendRequest_retry_reselects_peer :
    (∀ (opts : NetworkOptions) (m u : String) (ro : ReqOptions) (a : Attempt)
        (rest : List Attempt) (tries : Nat),
      attemptFailsHttp opts a = true → tries + 1 ≤ 2 →
      (sendRequest opts m u ro (a :: rest) tries).1 =
        (sendRequest opts m u { ro with body := serializeBody ro.body } rest (tries + 1)).1) ∧
    (sendRequest fixOpts "get" "blocks" { query := [], body := none }
        [fixFailConn, fixSuccessP2] 0).1 = .ok (.num 42) ∧
    ((sendRequest fixOpts "get" "blocks" { query := [], body := none }
        [fixFailConn, fixSuccessP2] 0).2.1.map IssuedRequest.peer) = [fixP1, fixP2] := by
  refine ⟨?_, ?_, ?_⟩
  · intro opts m u ro a rest tries ha ht
    obtain ⟨p, msg, hp, hf⟩ := attemptFailsHttp_spec ha
    rw [sendRequest_cons_fail opts m u ro a rest tries p msg hp hf ht]
  · rfl
  · rfl

theorem sendRequest_retry_reselects_peer_witness :
    (sendRequest fixOpts "get" "blocks" ⟨[], none⟩ [fixFailConn, fixSuccessP2] 0).1 =
      (sendRequest fixOpts "get" "blocks" ⟨[], serializeBody none⟩ [fixSuccessP2] 1).1 :=
  sendRequest_retry_reselects_peer.1 fixOpts "get" "blocks" ⟨[], none⟩ fixFailConn
    [fixSuccessP2] 0 (by decide) (by omega)

/-- Every request built by `mkReq` has the claimed shape. -/
theorem mkReq_shape (p : Peer) (m u : String) (ro : ReqOptions) :
    (mkReq p m u ro).method = m ∧
    (mkReq p m u ro).uri =
      "http://" ++ (mkReq p m u ro).peer.ip ++ ":" ++
        toString (mkReq p m u ro).peer.port ++ "/api/" ++ u ∧
    (mkReq p m u ro).accept = "application/vnd.core-api.v2+json" ∧
    (mkReq p m u ro).contentType = "application/json" ∧
    (mkReq p m u ro).timeout = 3000 ∧
    (mkReq p m u ro).sentBody = sentBodyOf (mkReq p m u ro).bodyBefore :=
  ⟨rfl, rfl, rfl, rfl, rfl, rfl⟩

/-- C6: every HTTP request issued during a dispatch goes to
`http://{peer.ip}:{peer.port}/api/{url}` for its attempt's selected
peer, with `Accept: application/vnd.core-api.v2+json`,
`Content-Type: application/json`, the fixed 3000 ms client timeout, and
a body that is JSON-serialized exactly when one is present and is not
already a string (`sentBodyOf`). -/
theorem sendRequest_issued_request_shape (opts : NetworkOptions) (m u : String)
    (ro : ReqOptions) (attempts : List Attempt) (tries : Nat) :
    ∀ req ∈ (sendRequest opts m u ro attempts tries).2.1,
      req.method = m ∧
      req.uri = "http://" ++ req.peer.ip ++ ":" ++ toString req.peer.port ++ "/api/" ++ u ∧
      req.accept = "application/vnd.core-api.v2+json" ∧
      req.contentType = "application/json" ∧
      req.timeout = 3000 ∧
      req.sentBody = sentBodyOf req.bodyBefore := by
  induction attempts generalizing ro tries with
  | nil =>
    intro req hreq
    simp [sendRequest] at hreq
  | cons a rest ih =>
    intro req hreq
    cases hgp : (getPeer opts a.probes).outcome with
    | diverge =>
      simp only [sendRequest, hgp] at hreq
      simp at hreq
    | err e =>
      simp only [sendRequest, hgp] at hreq
      by_cases hc : tries + 1 > 2
      · rw [if_pos hc] at hreq
        simp at hreq
      · rw [if_neg hc] at hreq
        simp only at hreq
        exact ih _ _ req hreq
    | ok p =>
      cases hao : attemptOutcome a with
      | ok j =>
        simp only [sendRequest, hgp, hao] at hreq
        simp at hreq
        exact hreq ▸ mkReq_shape p m u ro
      | error msg =>
        simp only [sendRequest, hgp, hao] at hreq
        by_cases hc : tries + 1 > 2
        · rw [if_pos hc] at hreq
          simp at hreq
          exact hreq ▸ mkReq_shape p m u ro
        · rw [if_neg hc] at hreq
          simp at hreq
          rcases hreq with hreq | hreq
          · exact hreq ▸ mkReq_shape p m u ro
          · exact ih _ _ req hreq

theorem sendRequest_issued_request_shape_witness :
    (mkReq fixP2 "get" "blocks" ⟨[], none⟩).method = "get" ∧
    (mkReq fixP2 "get" "blocks" ⟨[], none⟩).uri =
      "http://" ++ (mkReq fixP2 "get" "blocks" ⟨[], none⟩).peer.ip ++ ":" ++
        toString (mkReq fixP2 "get" "blocks" ⟨[], none⟩).peer.port ++ "/api/" ++ "blocks" ∧
    (mkReq fixP2 "get" "blocks" ⟨[], none⟩).accept = "application/vnd.core-api.v2+json" ∧
    (mkReq fixP2 "get" "blocks" ⟨[], none⟩).contentType = "application/json" ∧
    (mkReq fixP2 "get" "blocks" ⟨[], none⟩).timeout = 3000 ∧
    (mkReq fixP2 "get" "blocks" ⟨[], none⟩).sentBody =
      sentBodyOf (mkReq fixP2 "get" "blocks" ⟨[], none⟩).bodyBefore :=
  sendRequest_issued_request_shape fixOpts "get" "blocks" ⟨[], none⟩ [fixSuccessP2] 0
    (mkReq fixP2 "get" "blocks" ⟨[], none⟩) (List.mem_singleton.mpr rfl)

/-- C7: after the polled height has been written and its milestone
resolved, a watcher iteration performs no reschedule when the `aip11`
flag is active, and otherwise schedules exactly one future run of
itself, after `milestone.blocktime * 1000` milliseconds. -/
theorem aip11Step_reschedules_iff_flag_inactive (h : Option Json)
    (gm : Option Json → Milestone) :
    ((gm h).aip11 = true → aip11Step h gm = [.setHeight h]) ∧
    ((gm h).aip11 = false →
      aip11Step h gm = [.setHeight h, .schedule ((gm h).blocktime * 1000)]) := by
  constructor <;> intro hm <;> simp [aip11Step, hm]

theorem aip11Step_reschedules_iff_flag_inactive_witness :
    aip11Step (some (.num 7)) (fun _ => { aip11 := true, blocktime := 8 }) =
      [.setHeight (some (.num 7))] ∧
    aip11Step (some (.num 7)) (fun _ => { aip11 := false, blocktime := 8 }) =
      [.setHeight (some (.num 7)), .schedule 8000] :=
  ⟨(aip11Step_reschedules_iff_flag_inactive _ _).1 rfl,
   (aip11Step_reschedules_iff_flag_inactive _ _).2 rfl⟩

/-- C9: when the dispatcher's retry loop is exhausted, `getHeight` does
not return a height: the unconditional `.data.block.height` access on
the `undefined` sentinel throws a `TypeError` on the first member, and a
milestone-watcher iteration whose height query exhausted its retries
raises (rejects) instead of completing — in particular it never reaches
the reschedule step. -/
theorem getHeight_throws_after_exhausted_retries (opts : NetworkOptions)
    (a1 a2 a3 : Attempt) (rest : List Attempt) (gm : Option Json → Milestone)
    (h1 : attemptFailsHttp opts a1 = true)
    (h2 : attemptFailsHttp opts a2 = true)
    (h3 : attemptFailsHttp opts a3 = true) :
    (getHeight opts (a1 :: a2 :: a3 :: rest)).1 = .threw (.typeError "data") ∧
    (checkForAip11Enabled opts (a1 :: a2 :: a3 :: rest) gm).1 = .threw (.typeError "data") ∧
    ∀ acts, (checkForAip11Enabled opts (a1 :: a2 :: a3 :: rest) gm).1 ≠ .completed acts := by
  have hres := (sendRequest_exhausts opts "get" "blockchain" ⟨[], none⟩ a1 a2 a3 rest h1 h2 h3).1
  have hgh : (getHeight opts (a1 :: a2 :: a3 :: rest)).1 = .threw (.typeError "data") := by
    simp only [getHeight, sendGET]
    rw [hres]
    rfl
  refine ⟨hgh, ?_, ?_⟩
  · simp only [checkForAip11Enabled]
    rw [hgh]
  · intro acts
    simp only [checkForAip11Enabled]
    rw [hgh]
    simp

theorem getHeight_throws_after_exhausted_retries_witness :
    (getHeight fixOpts [fixFailConn, fixFailParse, fixFailTimeout]).1 =
      .threw (.typeError "data") ∧
    (checkForAip11Enabled fixOpts [fixFailConn, fixFailParse, fixFailTimeout]
        (fun _ => { aip11 := false, blocktime := 8 })).1 = .threw (.typeError "data") :=
  ⟨(getHeight_throws_after_exhausted_retries fixOpts fixFailConn fixFailParse fixFailTimeout
      [] (fun _ => { aip11 := false, blocktime := 8 }) (by decide) (by decide) (by decide)).1,
   (getHeight_throws_after_exhausted_retries fixOpts fixFailConn fixFailParse fixFailTimeout
      [] (fun _ => { aip11 := false, blocktime := 8 }) (by decide) (by decide) (by decide)).2.1⟩

/-- C10 (counterexample): with an empty string stored under the hashed
user id, the database *has* an entry, yet `getBIP38Wallet` returns
`undefined` — JavaScript truthiness treats the empty string like a
missing entry — refuting "returns undefined exactly when the database
has no entry". -/
theorem getBIP38Wallet_empty_entry_counterexample :
    ¬ (getBIP38Wallet fixCrypto fixDbEmpty "alice" "pw" = none ↔
        fixDbEmpty (fixCrypto.sha256hex "alice") = none) := by
  decide

/-- C10 (amended): `getBIP38Wallet` returns `undefined` exactly when the
database has no entry under the hex SHA-256 of the user id *or the
stored entry is the empty string*; otherwise it returns the wallet
produced by `decryptWIF` on the stored encrypted WIF, the user id and
the password (decryption keyed by `bip38password + userId`). -/
theorem getBIP38Wallet_amended (ops : CryptoOps) (dbGet : String → Option String)
    (userId bip38password : String) :
    (getBIP38Wallet ops dbGet userId bip38password = none ↔
      (dbGet (ops.sha256hex userId) = none ∨ dbGet (ops.sha256hex userId) = some "")) ∧
    (∀ s, dbGet (ops.sha256hex userId) = some s → s ≠ "" →
      getBIP38Wallet ops dbGet userId bip38password =
        some (decryptWIF ops s userId bip38password)) := by
  constructor
  · cases h : dbGet (ops.sha256hex userId) with
    | none => simp [getBIP38Wallet, h]
    | some s => by_cases hs : s = "" <;> simp [getBIP38Wallet, h, hs]
  · intro s hdb hs
    simp [getBIP38Wallet, hdb, hs]

theorem getBIP38Wallet_amended_witness :
    getBIP38Wallet fixCrypto fixDb "alice" "pw" =
      some (decryptWIF fixCrypto "6Pfix" "alice" "pw") :=
  (getBIP38Wallet_amended fixCrypto fixDb "alice" "pw").2 "6Pfix" (by decide) (by decide)

end ExchangeRpc
